import Mathlib

/-!
Shallow embedding of the crypto-mcp-server (src/src/index.ts), a single-tool
MCP server exposing the tool "get-crypto-price".  The embedding models the
JavaScript values the handlers manipulate, the zod argument schema
(PriceArgsSchema), the list-tools handler's constant descriptor, and the
call-tool handler with the outbound fetch represented as an oracle mapping a
URL to either a thrown exception message or a parsed JSON body.  JSON/JS
numbers are modeled as integers (every numeric value appearing in the spec and
claims is an integer); JS string upper-casing is modeled on ASCII.
-/

namespace CryptoMcp

/-- JavaScript values as they occur in this program: parsed JSON bodies and
caller-supplied tool arguments.  `undef` models the JavaScript value
`undefined` (possible in caller-supplied argument objects; a parsed JSON body
never contains it). -/
inductive JsonVal where
  | str (s : String)
  | num (n : Int)
  | boolean (b : Bool)
  | null
  | undef
  | obj (fields : List (String × JsonVal))
  | arr (elems : List JsonVal)
deriving Repr

/-- Field access on a JavaScript object for zod validation purposes: a field
whose value is `undefined` behaves exactly like an absent field (zod treats
`undefined` as missing for both required checks and `.optional()`). -/
def jsGet (fields : List (String × JsonVal)) (key : String) : Option JsonVal :=
  match fields.lookup key with
  | some JsonVal.undef => none
  | some v => some v
  | none => none

/-- JavaScript truthiness test negated, i.e. the `!price` check of line 77:
`0`, `""`, `false`, `null` and `undefined` are falsy; objects and arrays are
always truthy. -/
def jsFalsy : JsonVal → Bool
  | JsonVal.str s => s = ""
  | JsonVal.num n => n = 0
  | JsonVal.boolean b => !b
  | JsonVal.null => true
  | JsonVal.undef => true
  | JsonVal.obj _ => false
  | JsonVal.arr _ => false

/-- JavaScript string coercion as used by the template literal on line 92
(`${price}`); integers render with no decimal point, matching `Int` printing. -/
def jsToString : JsonVal → String
  | JsonVal.str s => s
  | JsonVal.num n => toString n
  | JsonVal.boolean b => if b then "true" else "false"
  | JsonVal.null => "null"
  | JsonVal.undef => "undefined"
  | JsonVal.obj _ => "[object Object]"
  | JsonVal.arr _ => "array"

/-- JavaScript `s.toUpperCase()` as used on line 92, modeled on ASCII
(character-wise upper-casing; every string the spec and claims use is
ASCII). -/
def jsToUpperCase (s : String) : String :=
  String.mk (s.data.map Char.toUpper)

/-- JavaScript property read `v[key]` on a parsed JSON value: reading a
property of `null` (or `undefined`) throws a TypeError, reading a missing key
of an object yields `undefined` (`none`), and reading a named key of a
primitive or array yields `undefined` (built-in properties such as `length`
are not modeled; the keys used here are coin and currency identifiers). -/
def jsIndex : JsonVal → String → Except String (Option JsonVal)
  | JsonVal.null, _ => Except.error "Cannot read properties of null"
  | JsonVal.undef, _ => Except.error "Cannot read properties of undefined"
  | JsonVal.obj fields, key => Except.ok (fields.lookup key)
  | _, _ => Except.ok none

/-- The lookup `data[coin]?.[currency]` of line 76: read `data[coin]`
(which can throw when `data` is `null`), then, unless that is `null` or
`undefined` (optional chaining short-circuits), read its `currency`
property. -/
def priceLookup (data : JsonVal) (coin currency : String) :
    Except String (Option JsonVal) := do
  let first ← jsIndex data coin
  match first with
  | none => pure none
  | some JsonVal.null => pure none
  | some v => jsIndex v currency

/-- Validated arguments of the tool, the result of a successful
`PriceArgsSchema.parse` (lines 13-16). -/
structure PriceArgs where
  coin : String
  currency : String
deriving Repr, DecidableEq

/-- The zod schema `PriceArgsSchema.parse(rawArgs)` of lines 13-16 and 69:
the input must be an object; `coin` must be a string of length at least 1;
`currency` is optional (absent or `undefined` defaults to "usd") but when
supplied must be a string — any string, including the empty string, passes.
On failure the thrown ZodError's message is modeled by a message naming the
failed check. -/
def parsePriceArgs (rawArgs : JsonVal) : Except String PriceArgs :=
  match rawArgs with
  | JsonVal.obj fields =>
    match jsGet fields "coin" with
    | some (JsonVal.str c) =>
      if c.length ≥ 1 then
        match jsGet fields "currency" with
        | none => Except.ok { coin := c, currency := "usd" }
        | some (JsonVal.str cur) => Except.ok { coin := c, currency := cur }
        | some _ => Except.error "Expected string for currency"
      else
        Except.error "String must contain at least 1 character(s)"
    | some _ => Except.error "Expected string for coin"
    | none => Except.error "Required"
  | _ => Except.error "Expected object"

/-- The lookup URL built on line 72, by direct template-literal substitution
of the validated coin and currency, with no encoding or case change. -/
def priceUrl (coin currency : String) : String :=
  "https://api.coingecko.com/api/v3/simple/price?ids=" ++ coin ++
    "&vs_currencies=" ++ currency

/-- Outcome of `await fetch(url)` followed by `await res.json()` (lines
73-74): either some exception was thrown (network failure, non-JSON body, …),
carrying its message, or a parsed JSON body was produced. -/
inductive FetchOutcome where
  | throws (msg : String)
  | json (body : JsonVal)
deriving Repr

/-- One `{ type: "text", text: … }` content block. -/
structure TextContent where
  type : String
  text : String
deriving Repr, DecidableEq

/-- A tool-call response body: `{ content: [ … ] }`. -/
structure ToolResponse where
  content : List TextContent
deriving Repr, DecidableEq

/-- Helper building the single-text-block response every branch of the
handler returns. -/
def mkText (t : String) : ToolResponse :=
  { content := [{ type := "text", text := t }] }

/-- The observable outcome of one call-tool invocation: the value returned to
the protocol layer (`Except.error` is a thrown error propagating as a
protocol-level fault, `Except.ok` a normal response), together with the list
of URLs fetched during the call, in order. -/
structure CallOutcome where
  result : Except String ToolResponse
  requests : List String
deriving Repr

/-- The CallToolRequestSchema handler of lines 64-109.  `fetch` is the oracle
for the combined `fetch`/`res.json()` effect.  For the known tool the whole
body runs inside `try`/`catch`, so validation errors, fetch/parse exceptions
and the lookup TypeError all become `"Error: " ++ message` text responses;
an unknown tool name throws `Unknown tool: <name>` past the handler. -/
def callToolHandler (fetch : String → FetchOutcome) (name : String)
    (rawArgs : JsonVal) : CallOutcome :=
  if name = "get-crypto-price" then
    match parsePriceArgs rawArgs with
    | Except.error msg => { result := Except.ok (mkText ("Error: " ++ msg)), requests := [] }
    | Except.ok args =>
      let url := priceUrl args.coin args.currency
      match fetch url with
      | FetchOutcome.throws msg =>
          { result := Except.ok (mkText ("Error: " ++ msg)), requests := [url] }
      | FetchOutcome.json data =>
        match priceLookup data args.coin args.currency with
        | Except.error msg =>
            { result := Except.ok (mkText ("Error: " ++ msg)), requests := [url] }
        | Except.ok price =>
          match price with
          | none =>
              { result := Except.ok (mkText ("Could not find price for " ++
                  args.coin ++ " in " ++ args.currency ++ ".")),
                requests := [url] }
          | some p =>
            if jsFalsy p then
              { result := Except.ok (mkText ("Could not find price for " ++
                  args.coin ++ " in " ++ args.currency ++ ".")),
                requests := [url] }
            else
              { result := Except.ok (mkText (jsToUpperCase args.coin ++ " = " ++
                  jsToString p ++ " " ++ jsToUpperCase args.currency)),
                requests := [url] }
  else
    { result := Except.error ("Unknown tool: " ++ name), requests := [] }

/-- One property of the tool's JSON input schema. -/
structure PropertySchema where
  type : String
  description : String
deriving Repr, DecidableEq

/-- The tool's JSON input schema. -/
structure InputSchema where
  type : String
  properties : List (String × PropertySchema)
  required : List String
deriving Repr, DecidableEq

/-- A tool descriptor as returned by the list-tools handler. -/
structure ToolDescriptor where
  name : String
  description : String
  inputSchema : InputSchema
deriving Repr, DecidableEq

/-- The ListToolsRequestSchema handler of lines 40-61: a constant — the
server holds no mutable state, so every listing, regardless of prior calls,
returns this same single-descriptor list.  The strings are copied verbatim
from the source (`\x27` is the apostrophe character). -/
def listToolsHandler : List ToolDescriptor :=
  [{ name := "get-crypto-price",
     description := "Fetch current price of a cryptocurrency from CoinGecko",
     inputSchema :=
       { type := "object",
         properties :=
           [("coin", { type := "string",
                       description := "CoinGecko coin ID (e.g., bitcoin, ethereum)" }),
            ("currency", { type := "string",
                           description := "Fiat currency (e.g., usd, eur). Default is \x27usd\x27." })],
         required := ["coin"] }}]

/-- The descriptor as the specification's section 6 words it, for comparison
with the one the code returns (it differs only in the two property
description strings). -/
def specToolDescriptor : ToolDescriptor :=
  { name := "get-crypto-price",
    description := "Fetch current price of a cryptocurrency from CoinGecko",
    inputSchema :=
      { type := "object",
        properties :=
          [("coin", { type := "string",
                      description := "coin identifier, e.g. bitcoin, ethereum" }),
           ("currency", { type := "string",
                          description := "fiat currency code, default \x27usd\x27" })],
        required := ["coin"] }}

/-- Helper: whenever the tool name matches, the handler returns a normal
response (`Except.ok`) — the whole body runs inside the `try`/`catch`, so no
exception escapes on that path. -/
theorem known_tool_result_ok (fetch : String → FetchOutcome) (rawArgs : JsonVal) :
    ∃ resp, (callToolHandler fetch "get-crypto-price" rawArgs).result = Except.ok resp := by
  unfold callToolHandler
  rw [if_pos rfl]
  split
  · exact ⟨_, rfl⟩
  · dsimp only
    split
    · exact ⟨_, rfl⟩
    · split
      · exact ⟨_, rfl⟩
      · split
        · exact ⟨_, rfl⟩
        · split
          · exact ⟨_, rfl⟩
          · exact ⟨_, rfl⟩

/-- C1: for a call with valid arguments where the lookup
`responseBody[coin][currency]` evaluates to a missing or falsy value (zero,
null, missing at either level), the handler returns a normal text response
exactly "Could not find price for <coin> in <currency>." with the original,
not upper-cased, strings (a price of exactly 0 included). -/
theorem c1_falsy_price_not_found (fetch : String → FetchOutcome)
    (rawArgs data : JsonVal) (coin currency : String) (p : Option JsonVal)
    (hargs : parsePriceArgs rawArgs = Except.ok { coin := coin, currency := currency })
    (hfetch : fetch (priceUrl coin currency) = FetchOutcome.json data)
    (hlook : priceLookup data coin currency = Except.ok p)
    (hfalsy : p = none ∨ ∃ v, p = some v ∧ jsFalsy v = true) :
    callToolHandler fetch "get-crypto-price" rawArgs =
      { result := Except.ok (mkText ("Could not find price for " ++ coin ++
          " in " ++ currency ++ ".")),
        requests := [priceUrl coin currency] } := by
  rcases hfalsy with rfl | ⟨v, rfl, hv⟩
  · simp [callToolHandler, hargs, hfetch, hlook]
  · simp [callToolHandler, hargs, hfetch, hlook, hv]

/-- Witness for C1 at the documented edge case: API body
`{ "bitcoin": { "usd": 0 } }`, request `{ coin: "bitcoin" }`. -/
theorem c1_falsy_price_not_found_witness :
    callToolHandler
        (fun _ => FetchOutcome.json
          (JsonVal.obj [("bitcoin", JsonVal.obj [("usd", JsonVal.num 0)])]))
        "get-crypto-price" (JsonVal.obj [("coin", JsonVal.str "bitcoin")]) =
      { result := Except.ok (mkText "Could not find price for bitcoin in usd."),
        requests := [priceUrl "bitcoin" "usd"] } :=
  c1_falsy_price_not_found _ _ _ "bitcoin" "usd" (some (JsonVal.num 0))
    rfl rfl rfl (Or.inr ⟨JsonVal.num 0, rfl, rfl⟩)

/-- C2: a call-tool request with any name other than "get-crypto-price"
throws `Unknown tool: <name>` to the protocol layer, is never converted into
a text-body response, and this is the only failure mode that escapes as a
protocol fault (every call to the known tool yields a normal response). -/
theorem c2_unknown_tool_protocol_error (fetch : String → FetchOutcome)
    (name : String) (rawArgs : JsonVal) :
    (name ≠ "get-crypto-price" →
      callToolHandler fetch name rawArgs =
        { result := Except.error ("Unknown tool: " ++ name), requests := [] }) ∧
    (∀ e, (callToolHandler fetch name rawArgs).result = Except.error e →
      name ≠ "get-crypto-price" ∧ e = "Unknown tool: " ++ name) := by
  constructor
  · intro h
    simp [callToolHandler, h]
  · intro e he
    by_cases h : name = "get-crypto-price"
    · subst h
      obtain ⟨resp, hresp⟩ := known_tool_result_ok fetch rawArgs
      rw [hresp] at he
      exact absurd he (by simp)
    · refine ⟨h, ?_⟩
      simp [callToolHandler, h] at he
      exact he.symm

/-- Witness for C2 with the spec's example name "not-a-real-tool". -/
theorem c2_unknown_tool_protocol_error_witness :
    callToolHandler (fun _ => FetchOutcome.json (JsonVal.obj []))
        "not-a-real-tool" (JsonVal.obj []) =
      { result := Except.error ("Unknown tool: " ++ "not-a-real-tool"),
        requests := [] } :=
  (c2_unknown_tool_protocol_error _ "not-a-real-tool" _).1 (by decide)

/-- C3: for a call with valid arguments whose lookup yields a present,
non-falsy value, the response text is exactly
"<COIN-UPPERCASE> = <price> <CURRENCY-UPPERCASE>", with the price rendered
verbatim as returned by the API. -/
theorem c3_success_text (fetch : String → FetchOutcome)
    (rawArgs data : JsonVal) (coin currency : String) (p : JsonVal)
    (hargs : parsePriceArgs rawArgs = Except.ok { coin := coin, currency := currency })
    (hfetch : fetch (priceUrl coin currency) = FetchOutcome.json data)
    (hlook : priceLookup data coin currency = Except.ok (some p))
    (hp : jsFalsy p = false) :
    callToolHandler fetch "get-crypto-price" rawArgs =
      { result := Except.ok (mkText (jsToUpperCase coin ++ " = " ++
          jsToString p ++ " " ++ jsToUpperCase currency)),
        requests := [priceUrl coin currency] } := by
  simp [callToolHandler, hargs, hfetch, hlook, hp]

/-- Witness for C3 at the spec's example: API body
`{ "bitcoin": { "usd": 65000 } }`, request `{ coin: "bitcoin" }`, text
exactly "BITCOIN = 65000 USD". -/
theorem c3_success_text_witness :
    callToolHandler
        (fun _ => FetchOutcome.json
          (JsonVal.obj [("bitcoin", JsonVal.obj [("usd", JsonVal.num 65000)])]))
        "get-crypto-price" (JsonVal.obj [("coin", JsonVal.str "bitcoin")]) =
      { result := Except.ok (mkText "BITCOIN = 65000 USD"),
        requests := [priceUrl "bitcoin" "usd"] } :=
  c3_success_text _ _ _ "bitcoin" "usd" (JsonVal.num 65000) rfl rfl rfl rfl

/-- C4: a get-crypto-price call whose raw arguments fail schema validation
returns a normal (non-protocol-error) text response "Error: <message>", and
no exception escapes (the result is `Except.ok`, so the process does not
crash). -/
theorem c4_validation_failure_error_text (fetch : String → FetchOutcome)
    (rawArgs : JsonVal) (msg : String)
    (h : parsePriceArgs rawArgs = Except.error msg) :
    callToolHandler fetch "get-crypto-price" rawArgs =
      { result := Except.ok (mkText ("Error: " ++ msg)), requests := [] } := by
  simp [callToolHandler, h]

/-- Witness for C4: arguments missing `coin` entirely. -/
theorem c4_validation_failure_error_text_witness :
    callToolHandler (fun _ => FetchOutcome.json (JsonVal.obj []))
        "get-crypto-price" (JsonVal.obj []) =
      { result := Except.ok (mkText ("Error: " ++ "Required")), requests := [] } :=
  c4_validation_failure_error_text _ _ "Required" rfl

/-- C5: with a valid non-empty coin and no currency argument, validation
succeeds with the default currency "usd", and the single URL requested uses
"usd"; after validation the currency field always carries a string value. -/
theorem c5_default_currency (fields : List (String × JsonVal)) (c : String)
    (hcoin : jsGet fields "coin" = some (JsonVal.str c))
    (hlen : c.length ≥ 1)
    (hcur : jsGet fields "currency" = none) :
    parsePriceArgs (JsonVal.obj fields) = Except.ok { coin := c, currency := "usd" } ∧
    ∀ fetch, (callToolHandler fetch "get-crypto-price" (JsonVal.obj fields)).requests =
      [priceUrl c "usd"] := by
  have hparse : parsePriceArgs (JsonVal.obj fields) =
      Except.ok { coin := c, currency := "usd" } := by
    simp [parsePriceArgs, hcoin, hcur, hlen]
  refine ⟨hparse, fun fetch => ?_⟩
  unfold callToolHandler
  rw [if_pos rfl, hparse]
  dsimp only
  split
  · rfl
  · split
    · rfl
    · split
      · rfl
      · split
        · rfl
        · rfl

/-- Witness for C5 with `{ coin: "bitcoin" }`. -/
theorem c5_default_currency_witness :
    parsePriceArgs (JsonVal.obj [("coin", JsonVal.str "bitcoin")]) =
      Except.ok { coin := "bitcoin", currency := "usd" } ∧
    ∀ fetch, (callToolHandler fetch "get-crypto-price"
        (JsonVal.obj [("coin", JsonVal.str "bitcoin")])).requests =
      [priceUrl "bitcoin" "usd"] :=
  c5_default_currency [("coin", JsonVal.str "bitcoin")] "bitcoin" rfl (by decide) rfl

/-- C6 counterexample: the descriptor the code returns is not the descriptor
the specification's section 6 words (the two property description strings
differ: the code says "CoinGecko coin ID (e.g., bitcoin, ethereum)" and
"Fiat currency (e.g., usd, eur). Default is \x27usd\x27.", not
"coin identifier, e.g. bitcoin, ethereum" and
"fiat currency code, default \x27usd\x27"). -/
theorem c6_descriptor_counterexample : listToolsHandler ≠ [specToolDescriptor] := by
  decide

/-- C6 amended: every tool-listing request (the handler is a constant, so
prior calls cannot affect it) returns exactly one descriptor: name
"get-crypto-price", description "Fetch current price of a cryptocurrency
from CoinGecko", an object input schema requiring `coin` of type string
described as "CoinGecko coin ID (e.g., bitcoin, ethereum)" and an optional
`currency` of type string described as "Fiat currency (e.g., usd, eur).
Default is \x27usd\x27.". -/
theorem c6_single_descriptor :
    listToolsHandler =
      [{ name := "get-crypto-price",
         description := "Fetch current price of a cryptocurrency from CoinGecko",
         inputSchema :=
           { type := "object",
             properties :=
               [("coin",
                 { type := "string",
                   description := "CoinGecko coin ID (e.g., bitcoin, ethereum)" }),
                ("currency",
                 { type := "string",
                   description := "Fiat currency (e.g., usd, eur). Default is \x27usd\x27." })],
             required := ["coin"] }}] := rfl

/-- C7: when the fetch (or JSON parsing of the body) throws, the fault is
caught and returned as the normal text response "Error: <exception message>";
moreover no exception ever escapes to the protocol layer on the
known-tool path. -/
theorem c7_fetch_throw_caught (fetch : String → FetchOutcome)
    (rawArgs : JsonVal) (coin currency msg : String)
    (hargs : parsePriceArgs rawArgs = Except.ok { coin := coin, currency := currency })
    (hfetch : fetch (priceUrl coin currency) = FetchOutcome.throws msg) :
    callToolHandler fetch "get-crypto-price" rawArgs =
      { result := Except.ok (mkText ("Error: " ++ msg)),
        requests := [priceUrl coin currency] } ∧
    ∀ g r, ∃ resp, (callToolHandler g "get-crypto-price" r).result = Except.ok resp := by
  refine ⟨?_, fun g r => known_tool_result_ok g r⟩
  simp [callToolHandler, hargs, hfetch]

/-- Witness for C7: the outbound call throws "network down". -/
theorem c7_fetch_throw_caught_witness :
    callToolHandler (fun _ => FetchOutcome.throws "network down")
        "get-crypto-price" (JsonVal.obj [("coin", JsonVal.str "bitcoin")]) =
      { result := Except.ok (mkText ("Error: " ++ "network down")),
        requests := [priceUrl "bitcoin" "usd"] } :=
  (c7_fetch_throw_caught (fun _ => FetchOutcome.throws "network down")
    (JsonVal.obj [("coin", JsonVal.str "bitcoin")]) "bitcoin" "usd"
    "network down" rfl rfl).1

/-- C8: for every validated (coin, currency) pair, exactly one HTTP GET is
issued and its URL is exactly the concatenation
"https://api.coingecko.com/api/v3/simple/price?ids=" ++ coin ++
"&vs_currencies=" ++ currency, with the validated values substituted
verbatim, with no encoding or case change. -/
theorem c8_url_verbatim (fetch : String → FetchOutcome)
    (rawArgs : JsonVal) (coin currency : String)
    (hargs : parsePriceArgs rawArgs = Except.ok { coin := coin, currency := currency }) :
    (callToolHandler fetch "get-crypto-price" rawArgs).requests =
      [priceUrl coin currency] ∧
    priceUrl coin currency =
      "https://api.coingecko.com/api/v3/simple/price?ids=" ++ coin ++
        "&vs_currencies=" ++ currency := by
  refine ⟨?_, rfl⟩
  unfold callToolHandler
  rw [if_pos rfl, hargs]
  dsimp only
  split
  · rfl
  · split
    · rfl
    · split
      · rfl
      · split
        · rfl
        · rfl

/-- Witness for C8 with `{ coin: "bitcoin", currency: "eur" }`. -/
theorem c8_url_verbatim_witness :
    (callToolHandler (fun _ => FetchOutcome.json (JsonVal.obj []))
        "get-crypto-price"
        (JsonVal.obj [("coin", JsonVal.str "bitcoin"),
                      ("currency", JsonVal.str "eur")])).requests =
      [priceUrl "bitcoin" "eur"] ∧
    priceUrl "bitcoin" "eur" =
      "https://api.coingecko.com/api/v3/simple/price?ids=" ++ "bitcoin" ++
        "&vs_currencies=" ++ "eur" :=
  c8_url_verbatim _ _ "bitcoin" "eur" rfl

/-- C9: for any name other than "get-crypto-price" the outcome is completely
independent of the supplied arguments and of the fetch environment: any two
calls agree, no HTTP request is issued and no validation runs (the error is
thrown before all other processing). -/
theorem c9_unknown_tool_ignores_args (name : String)
    (h : name ≠ "get-crypto-price") (f₁ f₂ : String → FetchOutcome)
    (r₁ r₂ : JsonVal) :
    callToolHandler f₁ name r₁ = callToolHandler f₂ name r₂ ∧
    (callToolHandler f₁ name r₁).requests = [] ∧
    (callToolHandler f₁ name r₁).result =
      Except.error ("Unknown tool: " ++ name) := by
  simp [callToolHandler, h]

/-- Witness for C9: two calls with different arguments and different fetch
environments under the name "not-a-real-tool". -/
theorem c9_unknown_tool_ignores_args_witness :
    callToolHandler (fun _ => FetchOutcome.throws "boom") "not-a-real-tool"
        (JsonVal.obj [("coin", JsonVal.str "bitcoin")]) =
      callToolHandler
        (fun _ => FetchOutcome.json (JsonVal.obj [])) "not-a-real-tool"
        (JsonVal.str "junk") ∧
    (callToolHandler (fun _ => FetchOutcome.throws "boom") "not-a-real-tool"
        (JsonVal.obj [("coin", JsonVal.str "bitcoin")])).requests = [] ∧
    (callToolHandler (fun _ => FetchOutcome.throws "boom") "not-a-real-tool"
        (JsonVal.obj [("coin", JsonVal.str "bitcoin")])).result =
      Except.error ("Unknown tool: " ++ "not-a-real-tool") :=
  c9_unknown_tool_ignores_args "not-a-real-tool" (by decide) _ _ _ _

/-- C10: validation is asymmetric — an empty coin is rejected (minimum
length 1) while an empty currency string is accepted verbatim (any supplied
string passes and the default "usd" is not applied), so a call with coin
"bitcoin" and currency "" proceeds with the empty currency, and a not-found
body produces the text "Could not find price for bitcoin in .". -/
theorem c10_empty_currency_accepted :
    (∀ cur : String,
      parsePriceArgs (JsonVal.obj [("coin", JsonVal.str "bitcoin"),
                                   ("currency", JsonVal.str cur)]) =
        Except.ok { coin := "bitcoin", currency := cur }) ∧
    parsePriceArgs (JsonVal.obj [("coin", JsonVal.str ""),
                                 ("currency", JsonVal.str "usd")]) =
      Except.error "String must contain at least 1 character(s)" ∧
    callToolHandler (fun _ => FetchOutcome.json (JsonVal.obj []))
        "get-crypto-price"
        (JsonVal.obj [("coin", JsonVal.str "bitcoin"),
                      ("currency", JsonVal.str "")]) =
      { result := Except.ok (mkText "Could not find price for bitcoin in ."),
        requests := [priceUrl "bitcoin" ""] } := by
  refine ⟨fun cur => rfl, rfl, rfl⟩

/-- Witness for C10 applied at the concrete currency "eur". -/
theorem c10_empty_currency_accepted_witness :
    parsePriceArgs (JsonVal.obj [("coin", JsonVal.str "bitcoin"),
                                 ("currency", JsonVal.str "eur")]) =
      Except.ok { coin := "bitcoin", currency := "eur" } :=
  c10_empty_currency_accepted.1 "eur"

end CryptoMcp
